import Mathlib

/-!
Shallow embedding of the news-monitoring backend (src/backend/app/services):
`news_service.py`, `llm_service.py` and `agent_service.py`.  Python strings
become `String`, possibly-absent dictionary fields become `Option String`,
floats become `Rat`, raised exceptions become `Except String`, and the
scheduler's mutable dictionaries become association lists threaded through
explicit state.  Each definition carries the file and line range it embeds.
-/

set_option maxRecDepth 40000

namespace AutoAgents

/-! ## Python-semantics helpers -/

/-- Helper for `pyIn`: substring test on character lists. -/
def pyInAux (needle : List Char) : List Char → Bool
  | [] => needle.isEmpty
  | c :: rest => List.isPrefixOf needle (c :: rest) || pyInAux needle rest

/-- Python `needle in haystack` on strings: substring containment.
The empty string is contained in every string, as in Python. -/
def pyIn (needle haystack : String) : Bool :=
  pyInAux needle.data haystack.data

/-- Python truthiness of an optional string: `None` and the empty string are
falsy, every other string is truthy. -/
def truthyOpt : Option String → Bool
  | none => false
  | some s => !s.isEmpty

/-- Python `s.split(",")` on the character list of `s`: splitting the empty
string gives `[""]`, and every comma opens a new piece. -/
def pySplitComma : List Char → List (List Char)
  | [] => [[]]
  | c :: rest =>
    if c = ',' then [] :: pySplitComma rest
    else
      match pySplitComma rest with
      | [] => [[c]]
      | piece :: pieces => (c :: piece) :: pieces

/-- Python `int(q)` on a rational: truncation toward zero. -/
def pyTrunc (q : Rat) : Int :=
  if q < 0 then Rat.ceil q else Rat.floor q

/-- Round-half-to-even to the nearest integer, as Python `round` does. -/
def pyRoundHalfEven (q : Rat) : Int :=
  let f := Rat.floor q
  let frac := q - (f : Rat)
  if frac < 1 / 2 then f
  else if 1 / 2 < frac then f + 1
  else if f % 2 = 0 then f else f + 1

/-- Python `round(q, 2)`: round to two decimal places, ties to even. -/
def pyRound2 (q : Rat) : Rat :=
  (pyRoundHalfEven (q * 100) : Rat) / 100

/-- A coroutine object: the value `async def f(...)` would produce under
`await`, wrapped unevaluated because the call site omitted `await`. -/
structure PyCoroutine (α : Type) where
  value : α

/-- Python truthiness of a coroutine object.  A coroutine object is an
ordinary object with no `__bool__`, hence always truthy, whatever the
awaited result would have been. -/
def PyCoroutine.truthy {α : Type} : PyCoroutine α → Bool :=
  fun _ => true

/-! ## Data model -/

/-- Agent configuration (models/agent.py), restricted to the columns the
monitoring pipeline reads: `keywords` is the raw comma-delimited string. -/
structure Agent where
  id : Nat
  name : String
  keywords : String
  llm_enabled : Bool
  min_confidence : Rat
deriving DecidableEq

/-- A raw article dictionary as returned by the search provider.  A field
holds `none` when the key is absent from the dictionary. -/
structure Article where
  title : Option String
  description : Option String
  content : Option String
  url : Option String
  publishedAt : Option String
deriving DecidableEq

/-- A persisted Article row (models/article.py), restricted to the columns
the claims mention. -/
structure ArticleRow where
  agent_id : Nat
  title : Option String
  url : Option String
  relevance_score : Int
  analysis_method : String
deriving DecidableEq

/-- The dictionary returned by `NewsService.analyze_keywords_match`
(news_service.py lines 191-198).  Its keys are `matched_keywords`,
`matched_score`, `total_matched` and `matched_locations`; the three
`*_matched` lists model the `matched_locations` sub-dictionary. -/
structure KeywordAnalysis where
  matched_keywords : List String
  matched_score : Rat
  total_matched : Nat
  title_matched : List String
  description_matched : List String
  content_matched : List String
deriving DecidableEq

/-- The dictionary returned by `LLMService.analyze_article_relevance`,
restricted to the four validated required fields. -/
structure LLMAnalysisResult where
  is_relevant : Bool
  confidence_score : Rat
  reasoning : String
  suggested_action : String
deriving DecidableEq

/-- The decision dictionary returned by
`AgentService.analyze_article_with_intelligence`
(agent_service.py lines 187-195 and 209-218). -/
structure DecisionResult where
  should_take_action : Bool
  method : String
  confidence : Rat
  reasoning : String
  suggested_action : String
deriving DecidableEq

/-- The scheduler-owned mutable state of `AgentService`
(agent_service.py lines 42-43): `running_agents` and `agent_tasks` are
Python dictionaries, modelled as association lists; `spawned_loops` records
the task id of every monitoring loop ever created with
`asyncio.create_task`, and `next_task_id` numbers them. -/
structure AgentServiceState where
  running_agents : List (Nat × Bool)
  agent_tasks : List (Nat × Nat)
  next_task_id : Nat
  spawned_loops : List Nat
deriving DecidableEq

/-- Python dictionary assignment `d[k] = v`: replace the binding if the key
is present, append it otherwise. -/
def dictInsert (l : List (Nat × Bool)) (k : Nat) (v : Bool) : List (Nat × Bool) :=
  match l with
  | [] => [(k, v)]
  | (k2, v2) :: rest => if k2 = k then (k, v) :: rest else (k2, v2) :: dictInsert rest k v

/-- Python dictionary assignment for the `agent_tasks` table. -/
def dictInsertNat (l : List (Nat × Nat)) (k : Nat) (v : Nat) : List (Nat × Nat) :=
  match l with
  | [] => [(k, v)]
  | (k2, v2) :: rest => if k2 = k then (k, v) :: rest else (k2, v2) :: dictInsertNat rest k v

/-! ## NewsService (news_service.py) -/

/-- The keyword loop of `NewsService.analyze_keywords_match`
(news_service.py lines 159-171).  For each keyword, its stripped lowercase
form is tested as a substring of the lowered title, else the lowered
description, else the lowered content; the original keyword is appended to
the matched list and to the location list of the first field that matched.
Returns `(matched_keyword, title, description, content)` location lists. -/
def kwScanLoop (title description content : String) :
    List String → List String × List String × List String × List String
  | [] => ([], [], [], [])
  | keyword :: rest =>
    let r := kwScanLoop title description content rest
    let kl := keyword.trim.toLower
    if pyIn kl title then (keyword :: r.1, keyword :: r.2.1, r.2.2.1, r.2.2.2)
    else if pyIn kl description then (keyword :: r.1, r.2.1, keyword :: r.2.2.1, r.2.2.2)
    else if pyIn kl content then (keyword :: r.1, r.2.1, r.2.2.1, keyword :: r.2.2.2)
    else r

/-- Embeds `NewsService.analyze_keywords_match` (news_service.py lines
131-198).  The fields are lowered with a `""` default (`.get(...) or ""`).
Line 180 assigns `matched_score = 0` when `keywords` is empty, but line 189
recomputes `matched_score = min(weighted_score/len(keywords), 1.0)`
unconditionally, so an empty keyword list reaches a division by
`len(keywords) = 0`, which raises `ZeroDivisionError` in Python.  The
returned score is `round(..., 2)` (line 193) and `matched_keywords` is
deduplicated through `set` (line 192). -/
def analyze_keywords_match (article : Article) (keywords : List String) :
    Except String KeywordAnalysis :=
  let title := (Option.getD article.title "").toLower
  let description := (Option.getD article.description "").toLower
  let content := (Option.getD article.content "").toLower
  let r := kwScanLoop title description content keywords
  if keywords.length = 0 then
    Except.error "ZeroDivisionError: float division by zero"
  else
    let weighted_score : Rat :=
      (r.2.1.length : Rat) * 1 + (r.2.2.1.length : Rat) * (7 / 10) +
        (r.2.2.2.length : Rat) * (3 / 10)
    let matched_score : Rat := min (weighted_score / (keywords.length : Rat)) 1
    Except.ok
      { matched_keywords := r.1.dedup
        matched_score := pyRound2 matched_score
        total_matched := r.1.dedup.length
        title_matched := r.2.1
        description_matched := r.2.2.1
        content_matched := r.2.2.2 }

/-- Embeds the removed-title test of `NewsService.filter_quality_articles`
(news_service.py line 226): `article.get("title") == ["removed"]` compares
the title, a string or `None`, with the one-element Python list
`["removed"]`; `==` between a string or `None` and a list is always
`False` in Python, so the test rejects nothing. -/
def title_eq_list_removed : Option String → Bool :=
  fun _ => false

/-- Embeds `NewsService.filter_quality_articles` (news_service.py lines
220-237): keep an article unless the title or url is falsy, the title
equals the list `["removed"]` (never, see `title_eq_list_removed`), or the
description defaulted to `""` is shorter than 30 characters.  The final
`not article.get("description")` test (line 230) is unreachable because an
absent or empty description already failed the length test. -/
def filter_quality_articles (articles : List Article) : List Article :=
  articles.filter fun article =>
    if !truthyOpt article.title || !truthyOpt article.url then false
    else if title_eq_list_removed article.title then false
    else if (Option.getD article.description "").length < 30 then false
    else if !truthyOpt article.description then false
    else true

/-! ## LLMService (llm_service.py) -/

/-- Embeds the confidence-normalization step of
`LLMService._parse_llm_response` (llm_service.py lines 192-196): divide by
100 when the reported value exceeds 1, then clamp into `[0, 1]` via
`max(0, min(1, confidence))`. -/
def normalize_confidence (confidence : Rat) : Rat :=
  let confidence := if 1 < confidence then confidence / 100 else confidence
  max 0 (min 1 confidence)

/-- Embeds `LLMService._call_llm_api` (llm_service.py lines 144-160) as a
function of the provider: `status attempt` is the HTTP status the provider
answers on the given attempt.  Status 200 returns the parsed body,
modelled by the attempt index that produced it; status 429 sleeps and
recursively retries (line 153) with no attempt cap; status 401 and every
other status raise.  The extra fuel argument counts recursion unfoldings:
`none` means the recursion has not returned within that many unfoldings,
so a result that is `none` for every fuel never returns at all. -/
def call_llm_api (status : Nat → Nat) : Nat → Nat → Option (Except String Nat)
  | _, 0 => none
  | attempt, fuel + 1 =>
    if status attempt = 200 then some (Except.ok attempt)
    else if status attempt = 429 then call_llm_api status (attempt + 1) fuel
    else if status attempt = 401 then some (Except.error "invalid api key")
    else some (Except.error "llm api response")

/-! ## AgentService (agent_service.py) -/

/-- Embeds the keyword preparation of
`AgentService.analyze_article_with_intelligence` (agent_service.py line
171): `[k.strip() for k in agent.keywords.split(",")]`. -/
def agentKeywords (agent : Agent) : List String :=
  (pySplitComma agent.keywords.data).map fun piece => (String.mk piece).trim

/-- Embeds the threshold test of agent_service.py line 207:
`keyword_analysis["matched_score"] > 0.5`. -/
def fallback_should_act (keyword_analysis : KeywordAnalysis) : Bool :=
  decide ((1 : Rat) / 2 < keyword_analysis.matched_score)

/-- Python subscript access `keyword_analysis[key]` on the dictionary
returned by `analyze_keywords_match`, whose keys are fixed by
news_service.py lines 191-198: `matched_keywords`, `matched_score`,
`total_matched` and `matched_locations`.  Any other key is absent and the
subscript raises `KeyError`, modelled by `none`; present values are
rendered as the strings the consuming f-string would embed. -/
def KeywordAnalysis.item (ka : KeywordAnalysis) (key : String) : Option String :=
  if key = "matched_keywords" then some (String.intercalate ", " ka.matched_keywords)
  else if key = "matched_score" then some (toString ka.matched_score)
  else if key = "total_matched" then some (toString ka.total_matched)
  else if key = "matched_locations" then
    some (String.intercalate ", "
      (ka.title_matched ++ ka.description_matched ++ ka.content_matched))
  else none

/-- Embeds the fallback branch of
`AgentService.analyze_article_with_intelligence` (agent_service.py lines
203-218).  It runs `analyze_keywords_match`, computes `should_act`
(line 207), then builds the return dictionary; formatting the `reasoning`
value reads `keyword_analysis["total_matches"]` (line 214), a key the
keyword-analysis dictionary does not have, so Python raises `KeyError`
before the dictionary literal is completed. -/
def fallback_branch (article : Article) (keywords : List String) :
    Except String DecisionResult :=
  match analyze_keywords_match article keywords with
  | Except.error e => Except.error e
  | Except.ok keyword_analysis =>
    let should_act := fallback_should_act keyword_analysis
    match KeywordAnalysis.item keyword_analysis "total_matches" with
    | none => Except.error "KeyError: total_matches"
    | some total =>
      Except.ok
        { should_take_action := should_act
          method := "fall_back analysis"
          confidence := keyword_analysis.matched_score
          reasoning := "Keyword analysis: " ++ total ++ " matches"
          suggested_action := if should_act then "save_important" else "ignore" }

/-- Embeds `AgentService.analyze_article_with_intelligence`
(agent_service.py lines 153-218).  The outcome of the awaited
`llm_service.analyze_article_relevance` call is passed in as `llm_call`:
`Except.ok` is the dictionary it returned, `Except.error` a raised
exception.  On success the decision uses
`is_relevant and confidence_score >= agent.min_confidence` (lines
183-185) and is tagged `llm_analysis`; the `save_llm_analysis` database
write (line 179) is modelled as effect-free.  On a raised exception, or
when `llm_enabled` is false, control reaches the fallback branch. -/
def analyze_article_with_intelligence (agent : Agent) (article : Article)
    (llm_call : Except String LLMAnalysisResult) : Except String DecisionResult :=
  if agent.llm_enabled then
    match llm_call with
    | Except.ok llm_analysis =>
      let should_act := llm_analysis.is_relevant &&
        decide (agent.min_confidence ≤ llm_analysis.confidence_score)
      Except.ok
        { should_take_action := should_act
          method := "llm_analysis"
          confidence := llm_analysis.confidence_score
          reasoning := llm_analysis.reasoning
          suggested_action := llm_analysis.suggested_action }
    | Except.error _ => fallback_branch article (agentKeywords agent)
  else fallback_branch article (agentKeywords agent)

/-- Embeds `AgentService.is_article_already_processed` (agent_service.py
lines 361-364): an `async def` querying storage for an article row with
the given url.  Its value is wrapped in `PyCoroutine` because the one call
site (line 144) does not `await` it. -/
def is_article_already_processed (db : List ArticleRow) (url : String) :
    PyCoroutine Bool :=
  PyCoroutine.mk (db.any fun row => row.url == some url)

/-- Embeds `AgentService.save_article` (agent_service.py lines 242-262):
build an Article row with `relevance_score = int(confidence * 100)` and
append it to storage.  Returns the new storage list and the row. -/
def save_article (agent : Agent) (db : List ArticleRow) (article : Article)
    (analysis : DecisionResult) : List ArticleRow × ArticleRow :=
  let article_record : ArticleRow :=
    { agent_id := agent.id
      title := article.title
      url := article.url
      relevance_score := pyTrunc (analysis.confidence * 100)
      analysis_method := analysis.method }
  (db ++ [article_record], article_record)

/-- Embeds `AgentService.mark_as_important` (agent_service.py lines
383-386): bump the row relevance score by 20, capped at 100. -/
def mark_as_important (article : ArticleRow) : ArticleRow :=
  { article with relevance_score := min (article.relevance_score + 20) 100 }

/-- Python `analysis.get(key)` on the decision dictionary built by
`analyze_article_with_intelligence`, whose string-valued keys are
`method`, `reasoning` and `suggested_action`; any other key yields
`None`, modelled by `none`. -/
def DecisionResult.pyGetStr (analysis : DecisionResult) (key : String) : Option String :=
  if key = "method" then some analysis.method
  else if key = "reasoning" then some analysis.reasoning
  else if key = "suggested_action" then some analysis.suggested_action
  else none

/-- Embeds `AgentService.execute_intelligent_action` (agent_service.py
lines 221-239): save the article, then dispatch on
`action = analysis.get("suggested_action, save_important")` — the call
passes the single malformed key string, so `action` is `None` and no
branch runs.  `notify_user` and `track_trend` only print; the
`save_important` branch would replace the saved row by its
`mark_as_important` bump.  Returns the new storage and the dispatched
action value. -/
def execute_intelligent_action (agent : Agent) (db : List ArticleRow)
    (article : Article) (analysis : DecisionResult) :
    List ArticleRow × Option String :=
  let article_record := (save_article agent db article analysis).2
  let action := DecisionResult.pyGetStr analysis "suggested_action, save_important"
  if action = some "notify_user" then (db ++ [article_record], action)
  else if action = some "track_trend" then (db ++ [article_record], action)
  else if action = some "save_important" then
    (db ++ [mark_as_important article_record], action)
  else (db ++ [article_record], action)

/-- Embeds `AgentService.start_agent_monitoring` (agent_service.py lines
78-91).  The guard `if agent_id in self.running_agents or
self.running_agents[agent_id]` short-circuits to the subscript when the
membership test fails, raising `KeyError` for an id with no entry; when
the id has an entry the guard is true, the body sets the running flag to
`True`, and — since the body does not return — control falls through to
`asyncio.create_task`, which always spawns a fresh monitoring loop and
overwrites the stored task handle. -/
def start_agent_monitoring (s : AgentServiceState) (agent_id : Nat) :
    Except String AgentServiceState :=
  match List.lookup agent_id s.running_agents with
  | none => Except.error "KeyError"
  | some _ =>
    let s1 : AgentServiceState :=
      { s with running_agents := dictInsert s.running_agents agent_id true }
    let task_id := s1.next_task_id
    Except.ok
      { s1 with
          agent_tasks := dictInsertNat s1.agent_tasks agent_id task_id
          spawned_loops := s1.spawned_loops ++ [task_id]
          next_task_id := task_id + 1 }

/-- Embeds the per-article processing loop of
`AgentService.execute_monitoring_cycle` (agent_service.py lines 143-150).
For each recent article the guard
`if self.is_article_already_processed(article["url"])` tests the
truthiness of the coroutine object returned by the un-awaited async call,
so it holds for every article and `continue` skips the article; otherwise
the article would be analyzed and, on a positive decision, acted on.
`llm_call` supplies the provider outcome for each article. -/
def execute_monitoring_cycle_actions (agent : Agent) (db : List ArticleRow)
    (recent_articles : List Article)
    (llm_call : Article → Except String LLMAnalysisResult) :
    Except String (List ArticleRow) :=
  match recent_articles with
  | [] => Except.ok db
  | article :: rest =>
    match article.url with
    | none => Except.error "KeyError: url"
    | some url =>
      if PyCoroutine.truthy (is_article_already_processed db url) then
        execute_monitoring_cycle_actions agent db rest llm_call
      else
        match analyze_article_with_intelligence agent article (llm_call article) with
        | Except.error e => Except.error e
        | Except.ok analysis =>
          if analysis.should_take_action then
            execute_monitoring_cycle_actions agent
              (execute_intelligent_action agent db article analysis).1 rest llm_call
          else
            execute_monitoring_cycle_actions agent db rest llm_call

/-! ## Concrete inputs -/

/-- A llm-enabled monitoring agent used as concrete input. -/
def monitorAgent : Agent :=
  { id := 1, name := "tech", keywords := "ai", llm_enabled := true, min_confidence := 7 / 10 }

/-- A quality, previously unseen article used as concrete input. -/
def freshArticle : Article :=
  { title := some "AI funding round"
    description := some (String.mk (List.replicate 40 'd'))
    content := some "c"
    url := some "url-fresh"
    publishedAt := none }

/-- A provider outcome that always succeeds with a relevant judgment. -/
def llmSaysAct : Article → Except String LLMAnalysisResult :=
  fun _ =>
    Except.ok
      { is_relevant := true, confidence_score := 9 / 10
        reasoning := "highly relevant", suggested_action := "save_important" }

/-- A decision dictionary with suggested action save_important and
confidence 0.85, used as concrete input for the dispatcher. -/
def c5Analysis : DecisionResult :=
  { should_take_action := true, method := "fall_back analysis"
    confidence := 17 / 20, reasoning := "matched", suggested_action := "save_important" }

/-- Article whose title contains ai and whose description contains chip. -/
def exampleAiChipArticle : Article :=
  { title := some "AI breakthrough announced"
    description := some "a new chip design reached the market this week"
    content := some "details"
    url := some "url-ai-chip"
    publishedAt := none }

/-- Article matching exactly one of three keywords, in the title. -/
def roundingArticle : Article :=
  { title := some "x", description := some "q", content := some "q"
    url := some "u", publishedAt := none }

/-- Article carrying the removed-sentinel title and a long description. -/
def removedTitleArticle : Article :=
  { title := some "[Removed]"
    description := some (String.mk (List.replicate 40 'a'))
    content := none, url := some "u", publishedAt := none }

/-- Article with a 29-character description. -/
def shortDescArticle : Article :=
  { title := some "ok title"
    description := some (String.mk (List.replicate 29 'b'))
    content := none, url := some "u", publishedAt := none }

/-- Article with a 30-character description. -/
def longDescArticle : Article :=
  { title := some "ok title"
    description := some (String.mk (List.replicate 30 'b'))
    content := none, url := some "u", publishedAt := none }

/-- Generic article used where the content is irrelevant. -/
def plainArticle : Article :=
  { title := some "t", description := some "d", content := some "c"
    url := some "u", publishedAt := none }

/-- A provider that answers 429 twice and then 200. -/
def flakyStatus : Nat → Nat :=
  fun i => if i < 2 then 429 else 200

/-! ## Helper lemmas -/

/-- Splitting a string on commas always yields at least one piece, exactly
as Python `s.split(",")` does. -/
theorem pySplitComma_ne_nil (cs : List Char) : pySplitComma cs ≠ [] := by
  induction cs with
  | nil => simp [pySplitComma]
  | cons c rest ih =>
    rw [pySplitComma]
    split
    · simp
    · split <;> simp_all

/-- The keyword list an agent feeds to the analysis is never empty,
because `str.split` never returns an empty list. -/
theorem agentKeywords_ne_nil (agent : Agent) : agentKeywords agent ≠ [] := by
  unfold agentKeywords
  intro h
  exact pySplitComma_ne_nil agent.keywords.data (List.map_eq_nil_iff.mp h)

/-- The title location list collects exactly the keywords whose stripped
lowercase form is a substring of the title. -/
theorem kwScanLoop_title_eq (title description content : String) (ks : List String) :
    (kwScanLoop title description content ks).2.1 =
      ks.filter fun k => pyIn k.trim.toLower title := by
  induction ks with
  | nil => rfl
  | cons k rest ih =>
    by_cases h1 : pyIn k.trim.toLower title
    · simp [kwScanLoop, h1, List.filter_cons, ih]
    · by_cases h2 : pyIn k.trim.toLower description
      · simp [kwScanLoop, h1, h2, List.filter_cons, ih]
      · by_cases h3 : pyIn k.trim.toLower content
        · simp [kwScanLoop, h1, h2, h3, List.filter_cons, ih]
        · simp [kwScanLoop, h1, h2, h3, List.filter_cons, ih]

/-- The description location list collects exactly the keywords that miss
the title and hit the description. -/
theorem kwScanLoop_description_eq (title description content : String) (ks : List String) :
    (kwScanLoop title description content ks).2.2.1 =
      ks.filter fun k => !pyIn k.trim.toLower title && pyIn k.trim.toLower description := by
  induction ks with
  | nil => rfl
  | cons k rest ih =>
    by_cases h1 : pyIn k.trim.toLower title
    · simp [kwScanLoop, h1, List.filter_cons, ih]
    · by_cases h2 : pyIn k.trim.toLower description
      · simp [kwScanLoop, h1, h2, List.filter_cons, ih]
      · by_cases h3 : pyIn k.trim.toLower content
        · simp [kwScanLoop, h1, h2, h3, List.filter_cons, ih]
        · simp [kwScanLoop, h1, h2, h3, List.filter_cons, ih]

/-- The content location list collects exactly the keywords that miss the
title and the description and hit the content. -/
theorem kwScanLoop_content_eq (title description content : String) (ks : List String) :
    (kwScanLoop title description content ks).2.2.2 =
      ks.filter fun k =>
        !pyIn k.trim.toLower title && !pyIn k.trim.toLower description &&
          pyIn k.trim.toLower content := by
  induction ks with
  | nil => rfl
  | cons k rest ih =>
    by_cases h1 : pyIn k.trim.toLower title
    · simp [kwScanLoop, h1, List.filter_cons, ih]
    · by_cases h2 : pyIn k.trim.toLower description
      · simp [kwScanLoop, h1, h2, List.filter_cons, ih]
      · by_cases h3 : pyIn k.trim.toLower content
        · simp [kwScanLoop, h1, h2, h3, List.filter_cons, ih]
        · simp [kwScanLoop, h1, h2, h3, List.filter_cons, ih]

/-- The fallback branch raises `KeyError` for every nonempty keyword list:
the reasoning f-string subscripts the keyword-analysis dictionary with the
key `total_matches`, which the dictionary spells `total_matched`. -/
theorem fallback_branch_keyerror (article : Article) (keywords : List String)
    (h : keywords ≠ []) :
    fallback_branch article keywords = Except.error "KeyError: total_matches" := by
  have hlen : ¬ keywords.length = 0 := fun hh => h (List.length_eq_zero.mp hh)
  simp only [fallback_branch, analyze_keywords_match]
  rw [if_neg hlen]
  simp [KeywordAnalysis.item]

/-- A provider that always answers 429 keeps the retry recursion running:
no amount of fuel makes `_call_llm_api` return. -/
theorem call_llm_api_always_429 (fuel attempt : Nat) :
    call_llm_api (fun _ => 429) attempt fuel = none := by
  induction fuel generalizing attempt with
  | zero => rfl
  | succ f ih => simp [call_llm_api, ih]

/-- When the provider first deviates from 429 on attempt `attempt + k`,
the recursion performs exactly `k` retries and then handles that status. -/
theorem call_llm_api_first_non429 (status : Nat → Nat) :
    ∀ (k attempt fuel : Nat), (∀ i, i < k → status (attempt + i) = 429) →
      status (attempt + k) ≠ 429 → k < fuel →
      call_llm_api status attempt fuel =
        some (if status (attempt + k) = 200 then Except.ok (attempt + k)
          else if status (attempt + k) = 401 then Except.error "invalid api key"
          else Except.error "llm api response") := by
  intro k
  induction k with
  | zero =>
    intro attempt fuel h429 hk hf
    match fuel, hf with
    | f + 1, _ =>
      simp only [Nat.add_zero] at hk ⊢
      by_cases h200 : status attempt = 200
      · simp [call_llm_api, h200]
      · simp only [call_llm_api]
        rw [if_neg h200, if_neg hk, if_neg h200]
        by_cases h401 : status attempt = 401
        · simp [h401]
        · simp [h401]
  | succ k ih =>
    intro attempt fuel h429 hk hf
    match fuel, hf with
    | f + 1, hf =>
      have h0 : status attempt = 429 := by
        have := h429 0 (Nat.succ_pos k)
        simpa using this
      have hstep : ∀ i, i < k → status (attempt + 1 + i) = 429 := by
        intro i hi
        have e : attempt + 1 + i = attempt + (i + 1) := by omega
        rw [e]
        exact h429 (i + 1) (Nat.succ_lt_succ hi)
      have hks : status (attempt + 1 + k) ≠ 429 := by
        have e : attempt + 1 + k = attempt + (k + 1) := by omega
        rw [e]
        exact hk
      have hfs : k < f := Nat.lt_of_succ_lt_succ hf
      have hrec := ih (attempt + 1) f hstep hks hfs
      have e : attempt + 1 + k = attempt + (k + 1) := by omega
      rw [e] at hrec
      simp [call_llm_api, h0, hrec]

/-! ## Claim theorems -/

/-- C1: the claim says start is idempotent for an agent already marked
running.  The code is not: starting agent 1 while its loop is marked
running and one loop (task 0) is already active succeeds and grows the
spawned-loop log to two loops for the same id, because the guard body
does not return and `asyncio.create_task` always runs. -/
theorem C1_start_spawns_second_loop :
    (start_agent_monitoring (AgentServiceState.mk [(1, true)] [(1, 0)] 1 [0]) 1).toOption.map
        AgentServiceState.spawned_loops = some [0, 1] ∧
    (some [0, 1] : Option (List Nat)) ≠ some [0] := by
  exact ⟨rfl, by decide⟩

/-- C2: the claim says a cycle observing a fresh url persists exactly one
Article record.  The code persists none: the dedup guard tests the
truthiness of an un-awaited coroutine, which always holds, so every
article is skipped — even though the analysis of that article (second
conjunct) would have decided to act.  Because storage is unchanged, a
second cycle observing the same url is the very same computation. -/
theorem C2_cycle_never_persists :
    execute_monitoring_cycle_actions monitorAgent [] [freshArticle] llmSaysAct =
      Except.ok [] ∧
    (analyze_article_with_intelligence monitorAgent freshArticle
        (llmSaysAct freshArticle)).toOption.map DecisionResult.should_take_action =
      some true := by
  exact ⟨rfl, of_decide_eq_true (by with_unfolding_all rfl)⟩

/-- C3 counterexample: the claim says a reported confidence of 1.4 is
clamped to 1.0; the code divides every value above 1 by 100 first, so
1.4 normalizes to 0.014. -/
theorem C3_confidence_14_counterexample :
    normalize_confidence (14 / 10) = 7 / 500 ∧ ¬ normalize_confidence (14 / 10) = 1 := by
  exact ⟨by with_unfolding_all rfl, of_decide_eq_false (by with_unfolding_all rfl)⟩

/-- C3 amended: every reported value above 1 is divided by 100 and then
clamped, so values in (1, 100] scale down instead of clamping to 1;
85 normalizes to 0.85, 1.4 to 0.014, and -0.2 clamps to 0. -/
theorem C3_confidence_normalization_amended (c : Rat) (hc : 1 < c) :
    normalize_confidence c = min (c / 100) 1 ∧
    normalize_confidence 85 = 17 / 20 ∧
    normalize_confidence (14 / 10) = 7 / 500 ∧
    normalize_confidence (-(2 / 10)) = 0 := by
  refine ⟨?_, by with_unfolding_all rfl, by with_unfolding_all rfl, by with_unfolding_all rfl⟩
  unfold normalize_confidence
  rw [if_pos hc]
  have h1 : (0 : Rat) ≤ min 1 (c / 100) :=
    le_min (by norm_num) (by linarith)
  rw [max_eq_right h1, min_comm]

/-- C3 amended witness at the concrete input 85. -/
theorem C3_confidence_normalization_amended_witness :
    (1 : Rat) < 85 ∧ normalize_confidence 85 = min ((85 : Rat) / 100) 1 :=
  ⟨by norm_num, (C3_confidence_normalization_amended 85 (by norm_num)).1⟩

/-- C4: the claim says that when the provider call raises, the decision
function returns a fallback-tagged result and never raises.  Instead the
fallback branch itself raises `KeyError`: it reads the key
`total_matches` from the keyword-analysis dictionary, whose key is
spelled `total_matched`, while formatting the reasoning string. -/
theorem C4_fallback_raises_keyerror (agent : Agent) (article : Article)
    (e : String) (h : agent.llm_enabled = true) :
    analyze_article_with_intelligence agent article (Except.error e) =
      Except.error "KeyError: total_matches" := by
  simp only [analyze_article_with_intelligence, h, if_true]
  exact fallback_branch_keyerror article (agentKeywords agent) (agentKeywords_ne_nil agent)

/-- C4 witness at a concrete agent, article and raised provider error. -/
theorem C4_fallback_raises_keyerror_witness :
    monitorAgent.llm_enabled = true ∧
    analyze_article_with_intelligence monitorAgent plainArticle
        (Except.error "boom") = Except.error "KeyError: total_matches" :=
  ⟨rfl, C4_fallback_raises_keyerror monitorAgent plainArticle "boom" rfl⟩

/-- C5: the claim says a save_important decision with confidence 0.85 is
persisted with relevance score 85 and then bumped to 100 by the
mark-important handler.  The code persists score 85 but dispatches
nothing: the action is read with the single malformed key
`suggested_action, save_important`, which is absent, so the dispatched
action is `None` and the score stays 85 — although the well-formed key
does hold save_important, and the handler itself would bump 85 to 100. -/
theorem C5_save_important_never_dispatched :
    (execute_intelligent_action monitorAgent [] freshArticle c5Analysis).2 = none ∧
    (execute_intelligent_action monitorAgent [] freshArticle c5Analysis).1.map
        ArticleRow.relevance_score = [85] ∧
    DecisionResult.pyGetStr c5Analysis "suggested_action" = some "save_important" ∧
    (mark_as_important
        (ArticleRow.mk 1 (some "t") (some "u") 85 "fall_back analysis")).relevance_score =
      100 := by
  refine ⟨by with_unfolding_all rfl, by with_unfolding_all rfl, rfl,
    by with_unfolding_all rfl⟩

/-- C6 counterexample: the claim says the retry on persistent 429 is
capped and surfaces a failure.  Against a provider that always answers
429 the recursion never returns at all: no fuel bound makes
`_call_llm_api` produce any outcome. -/
theorem C6_unbounded_retry_counterexample :
    ¬ ∃ fuel r, call_llm_api (fun _ => 429) 0 fuel = some r := by
  rintro ⟨fuel, r, hr⟩
  rw [call_llm_api_always_429] at hr
  exact Option.noConfusion hr

/-- C6 amended: the retry recursion is unbounded.  It returns exactly when
the provider first answers something other than 429, after one retry per
preceding 429, handling that first non-429 status as the source does; and
under a provider that always answers 429 it never returns. -/
theorem C6_retry_until_first_non429 (status : Nat → Nat) (k fuel : Nat)
    (h429 : ∀ i, i < k → status i = 429) (hk : status k ≠ 429) (hf : k < fuel) :
    call_llm_api status 0 fuel =
      some (if status k = 200 then Except.ok k
        else if status k = 401 then Except.error "invalid api key"
        else Except.error "llm api response") ∧
    (∀ f, call_llm_api (fun _ => 429) 0 f = none) := by
  constructor
  · have h429s : ∀ i, i < k → status (0 + i) = 429 := by
      intro i hi
      rw [Nat.zero_add]
      exact h429 i hi
    have hks : status (0 + k) ≠ 429 := by
      rw [Nat.zero_add]
      exact hk
    have := call_llm_api_first_non429 status k 0 fuel h429s hks hf
    rw [Nat.zero_add] at this
    exact this
  · intro f
    exact call_llm_api_always_429 f 0

/-- C6 amended witness: against a provider answering 429, 429, 200 the
call returns the attempt-2 response with fuel 3. -/
theorem C6_retry_until_first_non429_witness :
    call_llm_api flakyStatus 0 3 = some (Except.ok 2) := by
  have h := (C6_retry_until_first_non429 flakyStatus 2 3
    (by intro i hi; simp [flakyStatus, hi])
    (by simp [flakyStatus])
    (by norm_num)).1
  simpa [flakyStatus] using h

/-- C7 counterexample: with three keywords of which exactly one matches
the title, the claim's formula gives min(1/3, 1) = 1/3, but the code
returns the two-decimal rounding 0.33. -/
theorem C7_rounding_counterexample :
    (analyze_keywords_match roundingArticle ["x", "y", "z"]).toOption.map
        KeywordAnalysis.matched_score = some (33 / 100) ∧
    ¬ ((33 : Rat) / 100 = min ((1 : Rat) / 3) 1) := by
  exact ⟨by with_unfolding_all rfl, of_decide_eq_false (by with_unfolding_all rfl)⟩

/-- C7 amended: for every article and nonempty keyword list the matched
score is the claimed weighted sum over earliest-field matches, divided by
the keyword count, capped at 1.0, and additionally rounded to two decimal
places; in the ai/chip example the score is 0.85 and the act decision of
the fallback threshold is true. -/
theorem C7_keyword_scoring_amended (article : Article) (keywords : List String)
    (h : keywords ≠ []) :
    (analyze_keywords_match article keywords).toOption.map KeywordAnalysis.matched_score =
      some (pyRound2 (min
        ((((keywords.filter fun k =>
              pyIn k.trim.toLower ((Option.getD article.title "").toLower)).length : Rat) * 1 +
          ((keywords.filter fun k =>
              !pyIn k.trim.toLower ((Option.getD article.title "").toLower) &&
                pyIn k.trim.toLower
                  ((Option.getD article.description "").toLower)).length : Rat) * (7 / 10) +
          ((keywords.filter fun k =>
              !pyIn k.trim.toLower ((Option.getD article.title "").toLower) &&
                !pyIn k.trim.toLower ((Option.getD article.description "").toLower) &&
                  pyIn k.trim.toLower
                    ((Option.getD article.content "").toLower)).length : Rat) * (3 / 10)) /
          (keywords.length : Rat)) 1)) ∧
    (analyze_keywords_match exampleAiChipArticle ["ai", "chip"]).toOption.map
        (fun r => (r.matched_score, fallback_should_act r)) = some (17 / 20, true) := by
  constructor
  · have hlen : ¬ keywords.length = 0 := fun hh => h (List.length_eq_zero.mp hh)
    simp only [analyze_keywords_match]
    rw [if_neg hlen]
    rw [kwScanLoop_title_eq, kwScanLoop_description_eq, kwScanLoop_content_eq]
    rfl
  · exact of_decide_eq_true (by with_unfolding_all rfl)

/-- C7 amended witness at a concrete article and keyword list. -/
theorem C7_keyword_scoring_amended_witness :
    (["ai"] : List String) ≠ [] ∧
    (analyze_keywords_match exampleAiChipArticle ["ai"]).toOption.map
        KeywordAnalysis.matched_score = some 1 := by
  refine ⟨by decide, ?_⟩
  have h := (C7_keyword_scoring_amended exampleAiChipArticle ["ai"] (by decide)).1
  rw [h]
  with_unfolding_all rfl

/-- C8: the claim says an article whose title equals the removed sentinel
is rejected.  The code compares the title with the list `["removed"]`, a
comparison no string title satisfies, so the sentinel-titled article is
kept; the 29-character description is rejected and the 30-character one
accepted as claimed. -/
theorem C8_removed_sentinel_not_rejected :
    filter_quality_articles [removedTitleArticle, shortDescArticle, longDescArticle] =
      [removedTitleArticle, longDescArticle] := by
  with_unfolding_all rfl

/-- C9: the claim says an empty keyword list yields matched score 0
without raising.  The code guards the empty case on line 180 but then
divides by `len(keywords)` unconditionally on line 189, so the call
raises ZeroDivisionError instead. -/
theorem C9_empty_keywords_division_error :
    analyze_keywords_match plainArticle [] =
      Except.error "ZeroDivisionError: float division by zero" := rfl

/-- C10: for an agent id with no entry in the running-agents map, the
start guard short-circuits to the dictionary subscript and raises
`KeyError` instead of spawning the loop. -/
theorem C10_start_unknown_agent_keyerror (s : AgentServiceState) (agent_id : Nat)
    (h : List.lookup agent_id s.running_agents = none) :
    start_agent_monitoring s agent_id = Except.error "KeyError" := by
  simp [start_agent_monitoring, h]

/-- C10 witness: starting agent 1 on a fresh scheduler raises KeyError. -/
theorem C10_start_unknown_agent_keyerror_witness :
    List.lookup 1 (AgentServiceState.mk [] [] 0 []).running_agents = none ∧
    start_agent_monitoring (AgentServiceState.mk [] [] 0 []) 1 = Except.error "KeyError" :=
  ⟨rfl, C10_start_unknown_agent_keyerror (AgentServiceState.mk [] [] 0 []) 1 rfl⟩

end AutoAgents
